import Mathlib

/-!
Verification of the reconciliation core of the cos-registration-server-k8s
operator charm.

The development shallowly embeds the relevant code:
* `src/charm.py` — the fingerprint helpers `md5_dict` / `md5_list` and the
  auth-devices-keys reconciliation pass `_update_auth_devices_keys`;
* `lib/charms/auth_devices_keys_k8s/v0/auth_devices_keys.py` — the
  provider/consumer classes of the `auth_devices_keys` relation;
* `lib/charms/devices_pub_keys_manager_k8s/v0/devices_pub_keys.py` — the
  provider/consumer classes of the `devices_keys` relation;
* `lib/charms/blackbox_k8s/v0/blackbox_probes.py` — `set_probes_spec`.

Python values are modelled by the inductive `PyVal`; external library
behaviour that the code relies on (`hashlib.md5`, `repr`, `json.dumps`,
`json.dump`, `requests`) is modelled faithfully from its documented
contract: MD5 is implemented in full and cross-checked below against
`hashlib` digests, and the serializers reproduce CPython's `repr` and
`json.dumps` output byte for byte on the values in play (also
cross-checked below through digests computed by CPython).

Event handlers become pure functions from their inputs (leadership flag,
fetched data, stored state, active relation ids) to a result record
holding the new stored state, the list of successful relation-bucket
writes, the emitted events and the uncaught Python exception, if any.
-/

set_option maxRecDepth 100000

namespace CosReg

/-! ## 32-bit arithmetic and MD5 (model of `hashlib.md5(...).hexdigest()`) -/

/-- Truncation to 32 bits. -/
def w32 (n : Nat) : Nat := n % 4294967296

/-- 32-bit modular addition. -/
def add32 (a b : Nat) : Nat := w32 (a + b)

/-- 32-bit left rotation. -/
def rotl32 (x s : Nat) : Nat := w32 (x <<< s) ||| (x >>> (32 - s))

/-- 32-bit bitwise complement. -/
def not32 (x : Nat) : Nat := 4294967295 ^^^ x

/-- The MD5 round constants `K[i] = floor(2^32 * abs(sin(i + 1)))` (RFC 1321). -/
def md5K : List Nat := [3614090360, 3905402710, 606105819, 3250441966, 4118548399, 1200080426, 2821735955, 4249261313, 1770035416, 2336552879, 4294925233, 2304563134, 1804603682, 4254626195, 2792965006, 1236535329, 4129170786, 3225465664, 643717713, 3921069994, 3593408605, 38016083, 3634488961, 3889429448, 568446438, 3275163606, 4107603335, 1163531501, 2850285829, 4243563512, 1735328473, 2368359562, 4294588738, 2272392833, 1839030562, 4259657740, 2763975236, 1272893353, 4139469664, 3200236656, 681279174, 3936430074, 3572445317, 76029189, 3654602809, 3873151461, 530742520, 3299628645, 4096336452, 1126891415, 2878612391, 4237533241, 1700485571, 2399980690, 4293915773, 2240044497, 1873313359, 4264355552, 2734768916, 1309151649, 4149444226, 3174756917, 718787259, 3951481745]

/-- The MD5 per-round left-rotation amounts (RFC 1321). -/
def md5S : List Nat := [7, 12, 17, 22, 7, 12, 17, 22, 7, 12, 17, 22, 7, 12, 17, 22, 5, 9, 14, 20, 5, 9, 14, 20, 5, 9, 14, 20, 5, 9, 14, 20, 4, 11, 16, 23, 4, 11, 16, 23, 4, 11, 16, 23, 4, 11, 16, 23, 6, 10, 15, 21, 6, 10, 15, 21, 6, 10, 15, 21, 6, 10, 15, 21]

/-- A 32-bit value as four little-endian bytes. -/
def toLE4 (n : Nat) : List Nat := [n % 256, n / 256 % 256, n / 65536 % 256, n / 16777216 % 256]

/-- A 64-bit value as eight little-endian bytes. -/
def toLE8 (n : Nat) : List Nat := toLE4 (n % 4294967296) ++ toLE4 (n / 4294967296)

/-- MD5 padding: append `0x80`, zero bytes up to 56 mod 64, then the 64-bit
little-endian bit length of the message. -/
def md5Pad (msg : List Nat) : List Nat :=
  let len := msg.length
  let zeros := (119 - (len % 64)) % 64
  msg ++ [128] ++ List.replicate zeros 0 ++ toLE8 (8 * len)

/-- Split a byte sequence into 64-byte chunks (fuel-driven so that it is
structurally recursive; called with `fuel = l.length`). -/
def chunks64 : Nat → List Nat → List (List Nat)
  | 0, _ => []
  | _, [] => []
  | fuel + 1, l => l.take 64 :: chunks64 fuel (l.drop 64)

/-- A 64-byte chunk as 16 little-endian 32-bit words. -/
def leWords : List Nat → List Nat
  | b0 :: b1 :: b2 :: b3 :: rest => (b0 + 256 * b1 + 65536 * b2 + 16777216 * b3) :: leWords rest
  | _ => []

/-- The four 32-bit words of the MD5 internal state. -/
structure MD5State where
  a : Nat
  b : Nat
  c : Nat
  d : Nat

/-- One of the 64 MD5 rounds on one chunk. -/
def md5Round (m : List Nat) (st : MD5State) (i : Nat) : MD5State :=
  let fg :=
    if i < 16 then ((st.b &&& st.c) ||| (not32 st.b &&& st.d), i)
    else if i < 32 then ((st.d &&& st.b) ||| (not32 st.d &&& st.c), (5 * i + 1) % 16)
    else if i < 48 then (st.b ^^^ st.c ^^^ st.d, (3 * i + 5) % 16)
    else (st.c ^^^ (st.b ||| not32 st.d), (7 * i) % 16)
  let rot := rotl32 (add32 (add32 (add32 st.a fg.1) (md5K.getD i 0)) (m.getD fg.2 0)) (md5S.getD i 0)
  ⟨st.d, add32 st.b rot, st.b, st.c⟩

/-- Process one 64-byte chunk. -/
def md5Chunk (st : MD5State) (chunk : List Nat) : MD5State :=
  let m := leWords chunk
  let r := (List.range 64).foldl (md5Round m) st
  ⟨add32 st.a r.a, add32 st.b r.b, add32 st.c r.c, add32 st.d r.d⟩

/-- Lowercase hexadecimal digit. -/
def hexDigit (n : Nat) : Char := if n < 10 then Char.ofNat (48 + n) else Char.ofNat (87 + n)

/-- A byte as two lowercase hex digits. -/
def byteHex (b : Nat) : List Char := [hexDigit (b / 16), hexDigit (b % 16)]

/-- MD5 digest of a byte sequence as a lowercase hex string — the model of
`hashlib.md5(bytes).hexdigest()`. -/
def md5Hex (msg : List Nat) : String :=
  let padded := md5Pad msg
  let st := (chunks64 padded.length padded).foldl md5Chunk ⟨1732584193, 4023233417, 2562383102, 271733878⟩
  String.mk (((toLE4 st.a ++ toLE4 st.b ++ toLE4 st.c ++ toLE4 st.d).map byteHex).flatten)

/-- UTF-8 encoding of one character — the model of `str.encode()` per character. -/
def utf8Char (c : Char) : List Nat :=
  let n := c.toNat
  if n < 128 then [n]
  else if n < 2048 then [192 + n / 64, 128 + n % 64]
  else if n < 65536 then [224 + n / 4096, 128 + n / 64 % 64, 128 + n % 64]
  else [240 + n / 262144, 128 + n / 4096 % 64, 128 + n / 64 % 64, 128 + n % 64]

/-- UTF-8 encoding of a string — the model of `str.encode()`. -/
def utf8 (s : String) : List Nat := (s.data.map utf8Char).flatten

/-! ## Python values

`PyVal` covers the JSON-serializable Python values the reconciliation core
handles: strings, integers, booleans, `None`, lists and (insertion-ordered)
dicts with string keys. -/

/-- A JSON-serializable Python value. -/
inductive PyVal where
  | str (s : String)
  | int (n : Int)
  | bool (b : Bool)
  | none
  | list (xs : List PyVal)
  | dict (es : List (String × PyVal))

/-- Python truthiness (`if value:`): empty strings/containers, `0`, `False`
and `None` are falsy. -/
def truthy : PyVal → Bool
  | PyVal.str s => s != ""
  | PyVal.int n => n != 0
  | PyVal.bool b => b
  | PyVal.none => false
  | PyVal.list xs => !xs.isEmpty
  | PyVal.dict es => !es.isEmpty

/-- Decimal digits of a natural number (fuel-driven; `fuel = n + 1` suffices). -/
def natDigits : Nat → Nat → List Char
  | 0, _ => []
  | fuel + 1, n => if n < 10 then [hexDigit n] else natDigits fuel (n / 10) ++ [hexDigit (n % 10)]

/-- Decimal rendering of a natural number. -/
def natToStr (n : Nat) : String := String.mk (natDigits (n + 1) n)

/-- Decimal rendering of an integer, as Python renders `int`. -/
def intToStr : Int → String
  | Int.ofNat n => natToStr n
  | Int.negSucc n => "-" ++ natToStr (n + 1)

/-- Join strings with `", "` — the item separator of both `repr` and
`json.dumps` for lists and dicts. -/
def commaJoin : List String → String
  | [] => ""
  | [s] => s
  | s :: t :: ts => s ++ ", " ++ commaJoin (t :: ts)

/-- One escaped character of `repr(str)`, with quote character `q`:
backslash and the quote are backslash-escaped, newline/CR/tab get their
named escapes, other control characters become `\xhh`. -/
def reprEscapeChar (q c : Char) : List Char :=
  let n := c.toNat
  if c = Char.ofNat 92 then [Char.ofNat 92, Char.ofNat 92]
  else if c = q then [Char.ofNat 92, q]
  else if n = 10 then [Char.ofNat 92, 'n']
  else if n = 13 then [Char.ofNat 92, 'r']
  else if n = 9 then [Char.ofNat 92, 't']
  else if n < 32 ∨ n = 127 then [Char.ofNat 92, 'x', hexDigit (n / 16), hexDigit (n % 16)]
  else [c]

/-- `repr` of a Python string: single-quoted, except double-quoted when the
string contains a single quote but no double quote. -/
def reprStr (s : String) : String :=
  let q :=
    if s.data.contains (Char.ofNat 39) ∧ ¬s.data.contains (Char.ofNat 34) then Char.ofNat 34
    else Char.ofNat 39
  String.mk (q :: (s.data.map (reprEscapeChar q)).flatten ++ [q])

mutual

/-- The model of Python `repr` on `PyVal`: this is what `md5_list` hashes. -/
def pyRepr : PyVal → String
  | PyVal.str s => reprStr s
  | PyVal.int n => intToStr n
  | PyVal.bool b => if b then "True" else "False"
  | PyVal.none => "None"
  | PyVal.list xs => "[" ++ commaJoin (pyReprList xs) ++ "]"
  | PyVal.dict es => "\x7b" ++ commaJoin (pyReprEntries es) ++ "\x7d"

/-- `repr` of each element of a list. -/
def pyReprList : List PyVal → List String
  | [] => []
  | v :: vs => pyRepr v :: pyReprList vs

/-- `repr` of each `key: value` entry of a dict, in insertion order. -/
def pyReprEntries : List (String × PyVal) → List String
  | [] => []
  | e :: es => (reprStr e.1 ++ ": " ++ pyRepr e.2) :: pyReprEntries es

end

/-- Four lowercase hex digits. -/
def hex4 (n : Nat) : List Char := [hexDigit (n / 4096 % 16), hexDigit (n / 256 % 16), hexDigit (n / 16 % 16), hexDigit (n % 16)]

/-- One escaped character of `json.dumps` with its default `ensure_ascii=True`:
quote/backslash/named control escapes, `\uhhhh` for other control and all
non-ASCII characters (surrogate pairs beyond the BMP). -/
def jsonEscapeChar (c : Char) : List Char :=
  let n := c.toNat
  if c = Char.ofNat 34 then [Char.ofNat 92, Char.ofNat 34]
  else if c = Char.ofNat 92 then [Char.ofNat 92, Char.ofNat 92]
  else if n = 10 then [Char.ofNat 92, 'n']
  else if n = 13 then [Char.ofNat 92, 'r']
  else if n = 9 then [Char.ofNat 92, 't']
  else if n = 8 then [Char.ofNat 92, 'b']
  else if n = 12 then [Char.ofNat 92, 'f']
  else if n < 32 ∨ (127 ≤ n ∧ n < 65536) then Char.ofNat 92 :: 'u' :: hex4 n
  else if n < 127 then [c]
  else
    let m := n - 65536
    Char.ofNat 92 :: 'u' :: hex4 (55296 + m / 1024) ++ (Char.ofNat 92 :: 'u' :: hex4 (56320 + m % 1024))

/-- JSON string literal of `s`, as `json.dumps` renders strings. -/
def jsonQuote (s : String) : String :=
  String.mk (Char.ofNat 34 :: (s.data.map jsonEscapeChar).flatten ++ [Char.ofNat 34])

/-- Code-point lexicographic string comparison — how Python compares `str`
values, hence how `sorted` and `sort_keys=True` order dict keys. -/
def charListLe : List Char → List Char → Bool
  | [], _ => true
  | _ :: _, [] => false
  | a :: as, b :: bs =>
    if a.toNat < b.toNat then true
    else if b.toNat < a.toNat then false
    else charListLe as bs

/-- `strLe s t` holds when `s` precedes or equals `t` by code points. -/
def strLe (s t : String) : Bool := charListLe s.data t.data

/-- Insert a keyed pair into a key-sorted list, before the first key that is
not smaller (stable). -/
def orderedInsertK {β : Type} (a : String × β) : List (String × β) → List (String × β)
  | [] => [a]
  | b :: l => if strLe a.1 b.1 then a :: b :: l else b :: orderedInsertK a l

/-- Stable insertion sort of keyed pairs by key — the model of Python's
`sorted` as applied to dict items by `sort_keys=True` (any stable sort
agrees with it on the distinct keys of a dict). -/
def sortPairs {β : Type} : List (String × β) → List (String × β)
  | [] => []
  | a :: l => orderedInsertK a (sortPairs l)

/-- Render one serialized dict entry as `"key": value` — the default
`json.dumps` key separator. -/
def renderEntry (e : String × String) : String := jsonQuote e.1 ++ ": " ++ e.2

mutual

/-- The model of `json.dumps(value, sort_keys=sortKeys)` with CPython's
default separators and `ensure_ascii=True`. Dict entries are serialized and
then key-sorted when `sortKeys` is set; since the comparison reads only the
key, this equals CPython's sort-then-serialize order. -/
def jsonDumps (sortKeys : Bool) : PyVal → String
  | PyVal.str s => jsonQuote s
  | PyVal.int n => intToStr n
  | PyVal.bool b => if b then "true" else "false"
  | PyVal.none => "null"
  | PyVal.list xs => "[" ++ commaJoin (jsonDumpsList sortKeys xs) ++ "]"
  | PyVal.dict es =>
    "\x7b" ++ commaJoin ((if sortKeys then sortPairs (jsonDumpsEntries sortKeys es) else jsonDumpsEntries sortKeys es).map renderEntry) ++ "\x7d"

/-- Serialization of each list element. -/
def jsonDumpsList (sortKeys : Bool) : List PyVal → List String
  | [] => []
  | v :: vs => jsonDumps sortKeys v :: jsonDumpsList sortKeys vs

/-- Serialization of each dict entry's value, keeping the key. -/
def jsonDumpsEntries (sortKeys : Bool) : List (String × PyVal) → List (String × String)
  | [] => []
  | e :: es => (e.1, jsonDumps sortKeys e.2) :: jsonDumpsEntries sortKeys es

end

mutual

/-- Canonical form of a `PyVal`: dict entries recursively sorted by key.
Two Python values with distinct-keyed dicts are equal as logical values
(same mapping entries independent of insertion order, same sequence
elements in order) exactly when their canonical forms are equal. -/
def canon : PyVal → PyVal
  | PyVal.str s => PyVal.str s
  | PyVal.int n => PyVal.int n
  | PyVal.bool b => PyVal.bool b
  | PyVal.none => PyVal.none
  | PyVal.list xs => PyVal.list (canonList xs)
  | PyVal.dict es => PyVal.dict (sortPairs (canonEntries es))

/-- Canonical form of each list element. -/
def canonList : List PyVal → List PyVal
  | [] => []
  | v :: vs => canon v :: canonList vs

/-- Canonical form of each dict entry's value. -/
def canonEntries : List (String × PyVal) → List (String × PyVal)
  | [] => []
  | e :: es => (e.1, canon e.2) :: canonEntries es

end

mutual

/-- Structural Boolean equality on `PyVal`. -/
def pyValBEq : PyVal → PyVal → Bool
  | PyVal.str a, PyVal.str b => a == b
  | PyVal.int a, PyVal.int b => a == b
  | PyVal.bool a, PyVal.bool b => a == b
  | PyVal.none, PyVal.none => true
  | PyVal.list as, PyVal.list bs => pyValBEqList as bs
  | PyVal.dict as, PyVal.dict bs => pyValBEqEntries as bs
  | _, _ => false

/-- Pointwise Boolean equality of lists of values. -/
def pyValBEqList : List PyVal → List PyVal → Bool
  | [], [] => true
  | a :: as, b :: bs => pyValBEq a b && pyValBEqList as bs
  | _, _ => false

/-- Pointwise Boolean equality of dict entries. -/
def pyValBEqEntries : List (String × PyVal) → List (String × PyVal) → Bool
  | [], [] => true
  | a :: as, b :: bs => (a.1 == b.1) && pyValBEq a.2 b.2 && pyValBEqEntries as bs
  | _, _ => false

end

/-- The model of Python `==` on the values in play: structural equality up
to dict key insertion order (Python dict equality ignores it), via canonical
forms. The embedded code only ever compares values of different types with
it, where it returns `false` just as Python returns unequal. -/
def pyEqB (a b : PyVal) : Bool := pyValBEq (canon a) (canon b)

/-! ## The fingerprint helpers of `src/charm.py` -/

/-- `md5_dict` (src/charm.py lines 56-61): the MD5 hexdigest of
`json.dumps(dict, sort_keys=True)` encoded as UTF-8. -/
def md5_dict (d : PyVal) : String := md5Hex (utf8 (jsonDumps true d))

/-- `md5_list` (src/charm.py lines 64-68): the MD5 hexdigest of
`repr(lst)` encoded as UTF-8. -/
def md5_list (lst : PyVal) : String := md5Hex (utf8 (pyRepr lst))

/-! ### Cross-checks against CPython

Each digest below was computed by CPython's `hashlib`, `repr` and
`json.dumps` on the corresponding value, validating the MD5, UTF-8,
`repr` and `json.dumps` models end to end (including multi-block MD5
input and key sorting). -/

example : md5Hex (utf8 "") = "d41d8cd98f00b204e9800998ecf8427e" := by decide

example : md5Hex (utf8 "abc") = "900150983cd24fb0d6963f7d28e17f72" := by decide

example : md5Hex (utf8 (String.mk (List.replicate 70 'a'))) = "0f5c6c4e740bfcc08c3c26ccb2673d46" := by decide

example : md5_list (PyVal.list [PyVal.str "k1"]) = "089e2ef383086c5a41b3b735e78bfb64" := by decide

example : md5_list (PyVal.list [PyVal.str "k1", PyVal.str "k2"]) = "357d175c7d5c6333126210fb345d558b" := by decide

example : md5_list (PyVal.list [PyVal.dict [("a", PyVal.int 1), ("b", PyVal.int 2)]]) = "750fe16b165e0a81f11c910a98ab3f03" := by decide

example : md5_dict (PyVal.dict [("a", PyVal.int 1), ("b", PyVal.int 2)]) = "8aacdb17187e6acf2b175d4aa08d7213" := by decide

example : md5_dict (PyVal.dict [("b", PyVal.int 2), ("a", PyVal.int 1)]) = "8aacdb17187e6acf2b175d4aa08d7213" := by decide

example : jsonDumps false (PyVal.dict [("ssh_keys", PyVal.dict [])]) = "\x7b\"ssh_keys\": \x7b\x7d\x7d" := by decide

/-! ## Event-handler embedding

Each handler is a pure function of:
* `isLeader` — the value of `self._charm.unit.is_leader()`;
* the fetched/read external data — `_get_auth_devices_keys_from_db()`
  returns the JSON body on success and `None` when `requests.get` raises or
  `raise_for_status` fires (both are caught and logged), so its result is a
  `PyVal` with `PyVal.none` for the failure path; a file read
  (`json.load(open(...))`) is an `Option PyVal` with `Option.none` for any
  exception; a relation-databag read is an `Except PyError String` whose
  error is the caught `ModelError`;
* `rels` — the ids of the currently active relations of the relation name
  (`self._charm.model.relations[self._relation_name]`);
* the prior stored state.

The result records hold the new stored state, the relation-bucket writes
that actually took place (relation id paired with the serialized payload),
the emitted custom events, and `err` — the uncaught Python exception
aborting the handler, if any. -/

/-- A Python exception class appearing in the embedded code paths. -/
inductive PyError where
  | typeError
  | nameError
  | modelError

/-- A custom charm event emitted by the relation libraries. -/
inductive Event where
  | auth_devices_keys_changed
  | devices_keys_changed

/-- `_type_convert_stored` converts the `StoredList`/`StoredDict` wrappers
back to plain values; stored state is modelled as plain `PyVal`, so it is
the identity. -/
def _type_convert_stored (v : PyVal) : PyVal := v

/-- `json.dump(obj)` called with a single argument, as in
`_update_auth_devices_keys_on_relation` (auth_devices_keys.py line 301):
`json.dump` requires a file object as its second positional argument, so
the call raises `TypeError` before anything is serialized or written. -/
def json_dump_missing_fp (_obj : PyVal) : Except PyError String :=
  Except.error PyError.typeError

/-- `AuthDevicesKeysProvider._update_auth_devices_keys_on_relation`
(auth_devices_keys.py lines 294-301): serialize the stored keys with
`json.dump(stored_data)` and write the result under `auth_devices_keys` in
the relation's application databag. The serialization raises `TypeError`
(see `json_dump_missing_fp`), so the write never succeeds. -/
def _update_auth_devices_keys_on_relation (stored : PyVal) : Except PyError String :=
  json_dump_missing_fp (_type_convert_stored stored)

/-- Outcome of a fan-out loop: successful writes and the uncaught error. -/
structure FanOutResult where
  writes : List (Nat × String)
  err : Option PyError

/-- The fan-out loop of `update_all_auth_devices_keys_from_db`
(auth_devices_keys.py lines 290-292): write to each active relation in
order; there is no per-relation exception handling, so the first failing
write aborts the loop and the rest of the handler. -/
def auth_fan_out (stored : PyVal) : List Nat → FanOutResult
  | [] => ⟨[], Option.none⟩
  | r :: rs =>
    match _update_auth_devices_keys_on_relation stored with
    | Except.ok payload =>
      let rest := auth_fan_out stored rs
      ⟨(r, payload) :: rest.writes, rest.err⟩
    | Except.error e => ⟨[], Option.some e⟩

/-- Outcome of `update_all_auth_devices_keys_from_db`: the provider's new
stored keys, the relation writes, the uncaught error, and `ret` — the
Python return value of the method (always `None`: the method has no
return statement). -/
structure UpdateAllResult where
  auth_devices_keys : PyVal
  writes : List (Nat × String)
  err : Option PyError
  ret : PyVal

/-- `AuthDevicesKeysProvider.update_all_auth_devices_keys_from_db`
(auth_devices_keys.py lines 276-292): when the argument is truthy, clear
the stored keys in place, replace them with the argument, and — on the
leader only — fan out to every active relation. Falsy arguments (including
`None` and empty containers) leave everything untouched. Returns `None`. -/
def update_all_auth_devices_keys_from_db (auth_devices_keys : PyVal) (isLeader : Bool) (rels : List Nat) (stored0 : PyVal) : UpdateAllResult :=
  if truthy auth_devices_keys then
    if isLeader then
      let f := auth_fan_out auth_devices_keys rels
      ⟨auth_devices_keys, f.writes, f.err, PyVal.none⟩
    else ⟨auth_devices_keys, [], Option.none, PyVal.none⟩
  else ⟨stored0, [], Option.none, PyVal.none⟩

/-- `AuthDevicesKeysProvider._on_handle_relation` (auth_devices_keys.py
lines 263-274), the handler of leader-elected, upgrade-charm and
relation-created: non-leaders return immediately; the leader fetches the
keys from the database (`fetched`) and calls
`update_all_auth_devices_keys_from_db`. -/
def _on_handle_relation (isLeader : Bool) (fetched : PyVal) (rels : List Nat) (stored0 : PyVal) : UpdateAllResult :=
  if isLeader then update_all_auth_devices_keys_from_db fetched isLeader rels stored0
  else ⟨stored0, [], Option.none, PyVal.none⟩

/-- Outcome of `AuthDevicesKeysProvider._on_relation_changed`. -/
structure ProviderChangedResult where
  auth_devices_keys : PyVal
  writes : List (Nat × String)
  events : List Event
  err : Option PyError

/-- `AuthDevicesKeysProvider._on_relation_changed` (auth_devices_keys.py
lines 303-318): `changes = False`; on the leader,
`changes = self.update_all_auth_devices_keys_from_db(...)` — which always
returns `None` — then `if changes:` emits `auth_devices_keys_changed`. -/
def auth_provider_on_relation_changed (isLeader : Bool) (fetched : PyVal) (rels : List Nat) (stored0 : PyVal) : ProviderChangedResult :=
  if isLeader then
    let u := update_all_auth_devices_keys_from_db fetched isLeader rels stored0
    match u.err with
    | Option.some e => ⟨u.auth_devices_keys, u.writes, [], Option.some e⟩
    | Option.none =>
      let changes := u.ret
      ⟨u.auth_devices_keys, u.writes, if truthy changes then [Event.auth_devices_keys_changed] else [], Option.none⟩
  else
    let changes := PyVal.bool false
    ⟨stored0, [], if truthy changes then [Event.auth_devices_keys_changed] else [], Option.none⟩

/-- Outcome of the charm's `_update_auth_devices_keys` pass: the charm's
stored fingerprint, the provider's stored keys, the relation writes, the
emitted events (none — this path emits no event) and the uncaught error. -/
structure CharmRunResult where
  auth_devices_keys_hash : String
  auth_devices_keys : PyVal
  writes : List (Nat × String)
  events : List Event
  err : Option PyError

/-- `CosRegistrationServerCharm._update_auth_devices_keys` (src/charm.py
lines 265-273): `if auth_devices_keys := self._get_auth_devices_keys_from_db():`
— the walrus guard rejects both a failed fetch (`None`) and any falsy
value such as an empty list; then `md5_list` of the fetched value is
compared with `self._stored.auth_devices_keys_hash`, and on a difference
the stored hash is updated first and
`update_all_auth_devices_keys_from_db` is called. -/
def _update_auth_devices_keys (fetched : PyVal) (hash0 : String) (stored0 : PyVal) (isLeader : Bool) (rels : List Nat) : CharmRunResult :=
  if truthy fetched then
    let md5_keys_list_hash := md5_list fetched
    if md5_keys_list_hash ≠ hash0 then
      let u := update_all_auth_devices_keys_from_db fetched isLeader rels stored0
      ⟨md5_keys_list_hash, u.auth_devices_keys, u.writes, [], u.err⟩
    else ⟨hash0, stored0, [], [], Option.none⟩
  else ⟨hash0, stored0, [], [], Option.none⟩

/-- Outcome of a consumer's relation-changed handler: its stored copy of
the relation data, the emitted events and the uncaught error. -/
structure ConsumerResult where
  stored : PyVal
  events : List Event
  err : Option PyError

/-- `AuthDevicesKeysConsumer._on_relation_changed` (auth_devices_keys.py
lines 179-204): on the leader, read the remote databag (a caught
`ModelError` or an empty value returns early); the local variable `databag`
is assigned only inside the leader branch, yet the final comparison
`coerced_data != databag` executes unconditionally, so on a non-leader it
raises `NameError`. The `databag?` parameter of the inner continuation is
`Option.none` exactly when the Python local is unassigned. -/
def auth_consumer_on_relation_changed (isLeader : Bool) (readResult : Except PyError String) (stored0 : PyVal) : ConsumerResult :=
  let compareStep : Option String → ConsumerResult := fun databag? =>
    match databag? with
    | Option.none => ⟨stored0, [], Option.some PyError.nameError⟩
    | Option.some bag =>
      let coerced_data := if truthy stored0 then _type_convert_stored stored0 else PyVal.list []
      if pyEqB coerced_data (PyVal.str bag) then ⟨stored0, [], Option.none⟩
      else ⟨PyVal.str bag, [Event.auth_devices_keys_changed], Option.none⟩
  if isLeader then
    match readResult with
    | Except.error _ => ⟨stored0, [], Option.none⟩
    | Except.ok bag => if bag = "" then ⟨stored0, [], Option.none⟩ else compareStep (Option.some bag)
  else compareStep Option.none

/-- `DevicesKeysConsumer._on_relation_changed` (devices_pub_keys.py lines
171-198): identical structure to the auth consumer, with default `{}` for
the stored copy and the `devices_pub_keys` databag key; the same unassigned
`databag` local makes every non-leader delivery raise `NameError`. -/
def devices_consumer_on_relation_changed (isLeader : Bool) (readResult : Except PyError String) (stored0 : PyVal) : ConsumerResult :=
  let compareStep : Option String → ConsumerResult := fun databag? =>
    match databag? with
    | Option.none => ⟨stored0, [], Option.some PyError.nameError⟩
    | Option.some bag =>
      let coerced_data := if truthy stored0 then _type_convert_stored stored0 else PyVal.dict []
      if pyEqB coerced_data (PyVal.str bag) then ⟨stored0, [], Option.none⟩
      else ⟨PyVal.str bag, [Event.devices_keys_changed], Option.none⟩
  if isLeader then
    match readResult with
    | Except.error _ => ⟨stored0, [], Option.none⟩
    | Except.ok bag => if bag = "" then ⟨stored0, [], Option.none⟩ else compareStep (Option.some bag)
  else compareStep Option.none

/-- `DevicesKeysProvider._update_devices_pub_keys_on_relation`
(devices_pub_keys.py lines 296-304): write
`json.dumps({"ssh_keys": stored})` under `devices_pub_keys` in the
relation's application databag (this library correctly uses `json.dumps`). -/
def _update_devices_pub_keys_on_relation (stored : PyVal) : String :=
  jsonDumps false (PyVal.dict [("ssh_keys", _type_convert_stored stored)])

/-- Outcome of `DevicesKeysProvider._update_all_devices_keys_from_dir`. -/
structure DevicesUpdateResult where
  devices_pub_keys : PyVal
  writes : List (Nat × String)

/-- `DevicesKeysProvider._update_all_devices_keys_from_dir`
(devices_pub_keys.py lines 270-294): when the configured key-file path is
non-empty, the stored dict is cleared in place (`del` over all keys) before
the file is read; `json.load` runs under `try/except Exception`, so on any
read or parse failure the local still holds the cleared dict; the result is
stored and, on the leader, fanned out to every active relation. -/
def _update_all_devices_keys_from_dir (devices_keys_file : String) (fileContents : Option PyVal) (isLeader : Bool) (rels : List Nat) (stored0 : PyVal) : DevicesUpdateResult :=
  if devices_keys_file ≠ "" then
    let cleared := PyVal.dict []
    let loaded :=
      match fileContents with
      | Option.some v => v
      | Option.none => cleared
    ⟨loaded, if isLeader then rels.map (fun r => (r, _update_devices_pub_keys_on_relation loaded)) else []⟩
  else ⟨stored0, []⟩

/-- `DevicesKeysProvider._on_relation_created` (devices_pub_keys.py lines
260-268): only the leader runs `_update_all_devices_keys_from_dir`. -/
def devices_on_relation_created (devices_keys_file : String) (fileContents : Option PyVal) (isLeader : Bool) (rels : List Nat) (stored0 : PyVal) : DevicesUpdateResult :=
  if isLeader then _update_all_devices_keys_from_dir devices_keys_file fileContents isLeader rels stored0
  else ⟨stored0, []⟩

/-- Outcome of `DevicesKeysProvider._on_relation_changed`. -/
structure DevicesChangedResult where
  devices_pub_keys : PyVal
  writes : List (Nat × String)
  events : List Event

/-- `DevicesKeysProvider._on_relation_changed` (devices_pub_keys.py lines
307-321): `changes = False`; on the leader
`changes = self._update_all_devices_keys_from_dir(...)` — a method with no
return value — then `if changes:` emits `devices_keys_changed`. -/
def devices_provider_on_relation_changed (devices_keys_file : String) (fileContents : Option PyVal) (isLeader : Bool) (rels : List Nat) (stored0 : PyVal) : DevicesChangedResult :=
  if isLeader then
    let u := _update_all_devices_keys_from_dir devices_keys_file fileContents isLeader rels stored0
    let changes := PyVal.none
    ⟨u.devices_pub_keys, u.writes, if truthy changes then [Event.devices_keys_changed] else []⟩
  else
    let changes := PyVal.bool false
    ⟨stored0, [], if truthy changes then [Event.devices_keys_changed] else []⟩

/-- `BlackboxProbesProvider.set_probes_spec` (blackbox_probes.py lines
142-154): non-leaders return immediately; the leader writes
`scrape_metadata`, `scrape_probes` and `scrape_modules` (each
`json.dumps`-serialized) into the application databag of every active
relation. The result lists, per relation id, the key/value pairs written. -/
def set_probes_spec (isLeader : Bool) (scrape_metadata scrape_probes scrape_modules : PyVal) (rels : List Nat) : List (Nat × List (String × String)) :=
  if isLeader then
    rels.map (fun r => (r,
      [("scrape_metadata", jsonDumps false scrape_metadata),
       ("scrape_probes", jsonDumps false scrape_probes),
       ("scrape_modules", jsonDumps false scrape_modules)]))
  else []

/-! ## Lemmas on serialization and canonicalization -/

/-- Induction on `PyVal` through the nested lists. -/
theorem PyVal.my_ind (P : PyVal → Prop)
    (hstr : ∀ s, P (PyVal.str s)) (hint : ∀ n, P (PyVal.int n))
    (hbool : ∀ b, P (PyVal.bool b)) (hnone : P PyVal.none)
    (hlist : ∀ xs, (∀ v, v ∈ xs → P v) → P (PyVal.list xs))
    (hdict : ∀ es, (∀ e, e ∈ es → P (Prod.snd e)) → P (PyVal.dict es)) :
    ∀ v, P v
  | PyVal.str s => hstr s
  | PyVal.int n => hint n
  | PyVal.bool b => hbool b
  | PyVal.none => hnone
  | PyVal.list xs =>
    hlist xs (fun v hv =>
      have : sizeOf v < sizeOf (PyVal.list xs) := by
        have h1 := List.sizeOf_lt_of_mem hv
        simp only [PyVal.list.sizeOf_spec]
        omega
      PyVal.my_ind P hstr hint hbool hnone hlist hdict v)
  | PyVal.dict es =>
    hdict es (fun e he =>
      have : sizeOf e.2 < 1 + sizeOf es := by
        have h1 := List.sizeOf_lt_of_mem he
        have h2 : sizeOf e.2 < sizeOf e := by
          obtain ⟨k, v⟩ := e
          simp only [Prod.mk.sizeOf_spec]
          omega
        omega
      PyVal.my_ind P hstr hint hbool hnone hlist hdict e.2)
termination_by v => sizeOf v

/-- `jsonDumpsList` is a `map`. -/
theorem jsonDumpsList_eq_map (b : Bool) (xs : List PyVal) :
    jsonDumpsList b xs = xs.map (jsonDumps b) := by
  induction xs with
  | nil => rfl
  | cons v vs ih => simp [jsonDumpsList, ih]

/-- `jsonDumpsEntries` is a `map` over the entry values. -/
theorem jsonDumpsEntries_eq_map (b : Bool) (es : List (String × PyVal)) :
    jsonDumpsEntries b es = es.map (fun e => (e.1, jsonDumps b e.2)) := by
  induction es with
  | nil => rfl
  | cons e es ih => simp [jsonDumpsEntries, ih]

/-- `canonList` is a `map`. -/
theorem canonList_eq_map (xs : List PyVal) : canonList xs = xs.map canon := by
  induction xs with
  | nil => rfl
  | cons v vs ih => simp [canonList, ih]

/-- `canonEntries` is a `map` over the entry values. -/
theorem canonEntries_eq_map (es : List (String × PyVal)) :
    canonEntries es = es.map (fun e => (e.1, canon e.2)) := by
  induction es with
  | nil => rfl
  | cons e es ih => simp [canonEntries, ih]

/-- `orderedInsertK` commutes with mapping over entry values, since the
comparison reads only the key. -/
theorem orderedInsertK_map {β γ : Type} (g : β → γ) (a : String × β) (l : List (String × β)) :
    orderedInsertK (a.1, g a.2) (l.map (fun e => (e.1, g e.2)))
      = (orderedInsertK a l).map (fun e => (e.1, g e.2)) := by
  induction l with
  | nil => rfl
  | cons b t ih =>
    simp only [List.map, orderedInsertK]
    by_cases h : strLe a.1 b.1 = true
    · simp [h]
    · simp [h, ih]

/-- Key sorting commutes with mapping over entry values: serializing dict
values and then sorting by key equals sorting first and then serializing. -/
theorem sortPairs_map {β γ : Type} (g : β → γ) (l : List (String × β)) :
    sortPairs (l.map (fun e => (e.1, g e.2))) = (sortPairs l).map (fun e => (e.1, g e.2)) := by
  induction l with
  | nil => rfl
  | cons a t ih =>
    simp only [List.map, sortPairs, ih]
    exact orderedInsertK_map g a (sortPairs t)

/-- Serialization with `sort_keys=True` factors through the canonical form:
`json.dumps(v, sort_keys=True)` equals the plain serialization of `canon v`. -/
theorem jsonDumps_canon : ∀ v : PyVal, jsonDumps true v = jsonDumps false (canon v) := by
  intro v
  induction v using PyVal.my_ind with
  | hstr s => rfl
  | hint n => rfl
  | hbool b => rfl
  | hnone => rfl
  | hlist xs ih =>
    simp only [jsonDumps, canon, jsonDumpsList_eq_map, canonList_eq_map, List.map_map]
    have : xs.map (jsonDumps true) = xs.map (jsonDumps false ∘ canon) :=
      List.map_congr_left (fun v hv => ih v hv)
    rw [this]
  | hdict es ih =>
    simp only [jsonDumps, canon, if_true, jsonDumpsEntries_eq_map, canonEntries_eq_map,
      List.map_map]
    have h1 : es.map (fun e => (e.1, jsonDumps true e.2))
        = (es.map (fun e => (e.1, canon e.2))).map (fun e => (e.1, jsonDumps false e.2)) := by
      rw [List.map_map]
      exact List.map_congr_left (fun e he => by simp [Function.comp, ih e he])
    rw [h1, sortPairs_map (jsonDumps false) (es.map (fun e => (e.1, canon e.2)))]
    simp

/-! ## Claim theorems -/

/-- C1: immediately after a successful reconciliation pass of the auth-keys
category — fresh data fetched and truthy, its `md5_list` fingerprint
differing from the stored one, the pass completing without an uncaught
exception — the stored fingerprint equals the fingerprint of the
materialized data set: `_stored.auth_devices_keys_hash` equals
`md5_list` of the provider's stored `auth_devices_keys`. -/
theorem C1_stored_fingerprint_matches_materialized (fetched : PyVal) (hash0 : String)
    (stored0 : PyVal) (isLeader : Bool) (rels : List Nat)
    (ht : truthy fetched = true) (hd : md5_list fetched ≠ hash0)
    (hok : (_update_auth_devices_keys fetched hash0 stored0 isLeader rels).err = Option.none) :
    (_update_auth_devices_keys fetched hash0 stored0 isLeader rels).auth_devices_keys_hash
      = md5_list ((_update_auth_devices_keys fetched hash0 stored0 isLeader rels).auth_devices_keys) := by
  cases isLeader <;>
    simp [_update_auth_devices_keys, update_all_auth_devices_keys_from_db, ht, hd]

/-- Witness for C1 at the concrete input: fetched `["k1"]`, empty stored
fingerprint (the `UNINITIALIZED` state), leader, no relations. -/
theorem C1_witness :
    truthy (PyVal.list [PyVal.str "k1"]) = true
    ∧ md5_list (PyVal.list [PyVal.str "k1"]) ≠ ""
    ∧ (_update_auth_devices_keys (PyVal.list [PyVal.str "k1"]) "" (PyVal.list []) true []).err = Option.none
    ∧ (_update_auth_devices_keys (PyVal.list [PyVal.str "k1"]) "" (PyVal.list []) true []).auth_devices_keys_hash
        = md5_list ((_update_auth_devices_keys (PyVal.list [PyVal.str "k1"]) "" (PyVal.list []) true []).auth_devices_keys) :=
  ⟨rfl, by decide, rfl,
    C1_stored_fingerprint_matches_materialized _ _ _ _ _ rfl (by decide) rfl⟩

/-- C2: running the reconciliation pass twice in a row on the same truthy
fetched value is idempotent — after the first call has stored the
fingerprint of the fetched list, the second call leaves the stored
fingerprint and the materialized data set untouched, performs zero
relation-bucket writes, emits zero events and raises nothing. -/
theorem C2_second_pass_is_noop (fetched : PyVal) (hash0 : String) (stored0 : PyVal)
    (isLeader : Bool) (rels : List Nat) (ht : truthy fetched = true) :
    _update_auth_devices_keys fetched
        (_update_auth_devices_keys fetched hash0 stored0 isLeader rels).auth_devices_keys_hash
        (_update_auth_devices_keys fetched hash0 stored0 isLeader rels).auth_devices_keys
        isLeader rels
      = ⟨(_update_auth_devices_keys fetched hash0 stored0 isLeader rels).auth_devices_keys_hash,
         (_update_auth_devices_keys fetched hash0 stored0 isLeader rels).auth_devices_keys,
         [], [], Option.none⟩ := by
  have hfirst : (_update_auth_devices_keys fetched hash0 stored0 isLeader rels).auth_devices_keys_hash
      = md5_list fetched := by
    by_cases h1 : md5_list fetched = hash0
    · simp [_update_auth_devices_keys, ht, h1]
    · cases isLeader <;>
        simp [_update_auth_devices_keys, update_all_auth_devices_keys_from_db, ht, h1]
  rw [hfirst]
  simp [_update_auth_devices_keys, ht]

/-- Witness for C2 at the concrete input: fetched `["k1"]` twice, starting
from the empty stored fingerprint, leader, no relations. -/
theorem C2_witness :
    truthy (PyVal.list [PyVal.str "k1"]) = true
    ∧ _update_auth_devices_keys (PyVal.list [PyVal.str "k1"])
        (_update_auth_devices_keys (PyVal.list [PyVal.str "k1"]) "" (PyVal.list []) true []).auth_devices_keys_hash
        (_update_auth_devices_keys (PyVal.list [PyVal.str "k1"]) "" (PyVal.list []) true []).auth_devices_keys
        true []
      = ⟨(_update_auth_devices_keys (PyVal.list [PyVal.str "k1"]) "" (PyVal.list []) true []).auth_devices_keys_hash,
         (_update_auth_devices_keys (PyVal.list [PyVal.str "k1"]) "" (PyVal.list []) true []).auth_devices_keys,
         [], [], Option.none⟩ :=
  ⟨rfl, C2_second_pass_is_noop _ _ _ _ _ rfl⟩

/-- C3 (claim is wrong, code bug): on the `STALE → SYNCED` transition the
code emits no notification and completes no relation write. With stored
fingerprint for `["k1"]` and fetched `["k1", "k2"]` on the leader with one
active relation, the pass updates the stored fingerprint and keys but the
bucket write raises `TypeError` (`json.dump` without a file object) and the
handler aborts with zero writes and zero events; and on the provider's
relation-changed path with no relations the pass completes, yet zero
events are emitted because `update_all_auth_devices_keys_from_db` returns
`None`, so `if changes:` is never taken. -/
theorem C3_change_pass_writes_nothing_and_emits_nothing :
    _update_auth_devices_keys (PyVal.list [PyVal.str "k1", PyVal.str "k2"])
        (md5_list (PyVal.list [PyVal.str "k1"])) (PyVal.list [PyVal.str "k1"]) true [7]
      = ⟨md5_list (PyVal.list [PyVal.str "k1", PyVal.str "k2"]),
         PyVal.list [PyVal.str "k1", PyVal.str "k2"], [], [], Option.some PyError.typeError⟩
    ∧ auth_provider_on_relation_changed true (PyVal.list [PyVal.str "k1", PyVal.str "k2"]) []
        (PyVal.list [PyVal.str "k1"])
      = ⟨PyVal.list [PyVal.str "k1", PyVal.str "k2"], [], [], Option.none⟩ :=
  ⟨rfl, rfl⟩

/-- C4 counterexample: two logically equal values — equal canonical forms;
singleton lists holding the same mapping with different key insertion
orders — have different `md5_list` fingerprints, because `md5_list` hashes
`repr(lst)`, which preserves dict insertion order. -/
theorem C4_counterexample :
    canon (PyVal.list [PyVal.dict [("a", PyVal.int 1), ("b", PyVal.int 2)]])
      = canon (PyVal.list [PyVal.dict [("b", PyVal.int 2), ("a", PyVal.int 1)]])
    ∧ md5_list (PyVal.list [PyVal.dict [("a", PyVal.int 1), ("b", PyVal.int 2)]])
      ≠ md5_list (PyVal.list [PyVal.dict [("b", PyVal.int 2), ("a", PyVal.int 1)]]) :=
  ⟨rfl, by decide⟩

/-- C4 (amended): the `md5_dict` fingerprint is key-order independent —
values that are equal as logical values (equal canonical forms: the same
mapping entries independent of key insertion order, including mappings
nested inside sequences, and the same sequence elements in order) have
equal `md5_dict` fingerprints, since `json.dumps(…, sort_keys=True)`
canonicalizes key order before hashing. (`md5_list`, hashing `repr`, does
not enjoy this property — see the counterexample.) -/
theorem C4_md5_dict_key_order_independent (v₁ v₂ : PyVal) (h : canon v₁ = canon v₂) :
    md5_dict v₁ = md5_dict v₂ := by
  unfold md5_dict
  rw [jsonDumps_canon v₁, jsonDumps_canon v₂, h]

/-- Witness for C4 at the concrete input of the spec:
`fingerprint({"a": 1, "b": 2}) == fingerprint({"b": 2, "a": 1})`. -/
theorem C4_witness :
    canon (PyVal.dict [("a", PyVal.int 1), ("b", PyVal.int 2)])
      = canon (PyVal.dict [("b", PyVal.int 2), ("a", PyVal.int 1)])
    ∧ md5_dict (PyVal.dict [("a", PyVal.int 1), ("b", PyVal.int 2)])
      = md5_dict (PyVal.dict [("b", PyVal.int 2), ("a", PyVal.int 1)]) :=
  ⟨rfl, C4_md5_dict_key_order_independent _ _ rfl⟩

/-- C5: when the fetch fails (`_get_auth_devices_keys_from_db` catches the
`RequestException` of a raising or non-2xx HTTP request and returns
`None`), the pass aborts with the prior state fully retained: unchanged
stored fingerprint, unchanged materialized data set, zero relation writes,
zero events, no exception — on both the charm's update path and the
provider's handle-relation path. -/
theorem C5_failed_fetch_retains_state (hash0 : String) (stored0 : PyVal) (isLeader : Bool)
    (rels : List Nat) :
    _update_auth_devices_keys PyVal.none hash0 stored0 isLeader rels
      = ⟨hash0, stored0, [], [], Option.none⟩
    ∧ _on_handle_relation isLeader PyVal.none rels stored0
      = ⟨stored0, [], Option.none, PyVal.none⟩ := by
  constructor
  · rfl
  · cases isLeader <;> rfl

/-- C6 counterexample: an empty fresh result is not treated as valid data.
With non-empty stored state (keys `["k1"]` and their fingerprint) and a
reachable source returning zero items (`[]`), the pass does not replace
the materialized set with the empty set and performs no fan-out — the
falsy empty list is rejected by the walrus guard before the fingerprint
equality check, leaving everything unchanged. -/
theorem C6_counterexample :
    _update_auth_devices_keys (PyVal.list []) (md5_list (PyVal.list [PyVal.str "k1"]))
        (PyVal.list [PyVal.str "k1"]) true [7]
      = ⟨md5_list (PyVal.list [PyVal.str "k1"]), PyVal.list [PyVal.str "k1"], [], [],
         Option.none⟩
    ∧ PyVal.list [PyVal.str "k1"] ≠ PyVal.list [] :=
  ⟨rfl, by simp⟩

/-- C6 (amended): an empty fresh result (empty list or empty dict) is
skipped exactly like a failed fetch: the truthiness guard rejects it before
the fingerprint equality check, so the stored fingerprint and materialized
set are unchanged and no fan-out occurs — in particular an already-empty
stored state also produces no fan-out. -/
theorem C6_empty_fetch_skipped (hash0 : String) (stored0 : PyVal) (isLeader : Bool)
    (rels : List Nat) :
    _update_auth_devices_keys (PyVal.list []) hash0 stored0 isLeader rels
      = ⟨hash0, stored0, [], [], Option.none⟩
    ∧ _update_auth_devices_keys (PyVal.dict []) hash0 stored0 isLeader rels
      = ⟨hash0, stored0, [], [], Option.none⟩ :=
  ⟨rfl, rfl⟩

/-- C7: on a unit that is not the leader, no handler writes to any relation
data bucket — every write path of the provider libraries (the auth-keys
handle-relation, update-all and relation-changed paths, the Blackbox
`set_probes_spec`, and the devices-keys update-from-dir, relation-created
and relation-changed paths) produces zero relation writes. -/
theorem C7_non_leader_writes_no_relation_data (fetched stored0 m p mo : PyVal)
    (rels : List Nat) (file : String) (fc : Option PyVal) :
    (_on_handle_relation false fetched rels stored0).writes = []
    ∧ (update_all_auth_devices_keys_from_db fetched false rels stored0).writes = []
    ∧ (auth_provider_on_relation_changed false fetched rels stored0).writes = []
    ∧ set_probes_spec false m p mo rels = []
    ∧ (_update_all_devices_keys_from_dir file fc false rels stored0).writes = []
    ∧ (devices_on_relation_created file fc false rels stored0).writes = []
    ∧ (devices_provider_on_relation_changed file fc false rels stored0).writes = [] := by
  refine ⟨rfl, ?_, rfl, rfl, ?_, rfl, rfl⟩
  · unfold update_all_auth_devices_keys_from_db
    split <;> rfl
  · unfold _update_all_devices_keys_from_dir
    split <;> rfl

/-- C8 counterexample: a failure while writing to one relation instance
does prevent the remaining relation instances from receiving the data.
With two active relations, the write to the first raises `TypeError` and
the fan-out aborts: the second relation receives nothing (no successful
write at all). -/
theorem C8_counterexample :
    auth_fan_out (PyVal.list [PyVal.str "k1"]) [1, 2] = ⟨[], Option.some PyError.typeError⟩ :=
  rfl

/-- C8 (amended): auth-keys peer fan-out attempts to write the full
materialized set to each active relation in order, but per-relation
failures are not independent: there is no per-relation exception handling,
so the first failing write aborts the fan-out and no later relation is
written — and in this library every write fails with `TypeError`, because
the payload is serialized with `json.dump` instead of `json.dumps`. An
empty relation list trivially succeeds. -/
theorem C8_first_write_failure_aborts_fan_out (stored : PyVal) (r : Nat) (rs : List Nat) :
    auth_fan_out stored (r :: rs) = ⟨[], Option.some PyError.typeError⟩
    ∧ auth_fan_out stored [] = ⟨[], Option.none⟩ :=
  ⟨rfl, rfl⟩

/-- C9: every relation-changed event delivered to
`AuthDevicesKeysConsumer._on_relation_changed` or
`DevicesKeysConsumer._on_relation_changed` on a non-leader unit raises an
unhandled `NameError` (the comparison reads the local `databag`, assigned
only in the leader branch) and leaves the stored state unchanged. -/
theorem C9_non_leader_consumer_raises_nameerror (readResult : Except PyError String)
    (stored0 : PyVal) :
    auth_consumer_on_relation_changed false readResult stored0
      = ⟨stored0, [], Option.some PyError.nameError⟩
    ∧ devices_consumer_on_relation_changed false readResult stored0
      = ⟨stored0, [], Option.some PyError.nameError⟩ :=
  ⟨rfl, rfl⟩

/-- C10: in `DevicesKeysProvider._update_all_devices_keys_from_dir` the
stored public-key set is cleared in place before the key file is read, so
whenever reading or parsing the key file fails, the operation completes
with the stored set empty — regardless of the previously stored keys — and
the leader's fan-out publishes the empty set
(`{"ssh_keys": {}}`) to every active relation. -/
theorem C10_read_failure_clears_and_publishes_empty (stored0 : PyVal) (isLeader : Bool)
    (rels : List Nat) :
    _update_all_devices_keys_from_dir "/server_data/devices_keys" Option.none isLeader rels stored0
      = ⟨PyVal.dict [],
         if isLeader then
           rels.map (fun r => (r, jsonDumps false (PyVal.dict [("ssh_keys", PyVal.dict [])])))
         else []⟩ :=
  rfl

end CosReg
